import Mathlib

/-!
Shallow embedding of the storage-synchronized reactive state containers of
the more-yew-hooks repository, and proofs of the spec claims about them.

The two storage variants are embedded as pure state-transition functions:
  - variant A (default-value): src/use_local_storage_default.rs
  - variant B (optional-value): src/use_session_storage_with_listen.rs
The backing store is an association list from string keys to stored slots;
a slot either holds a value of the payload type or holds bytes that do not
deserialize (`corrupt`). Trace records (info/warn) are returned explicitly.
The reactive collection container (src/use_btree_set.rs) is embedded as a
sorted duplicate-free list with an update-signal counter.
-/

/-- A persisted slot: either a value that deserializes as the payload type,
or stored bytes that fail to deserialize. -/
inductive Stored (α : Type) where
  | value (v : α)
  | corrupt
  deriving Repr, DecidableEq

/-- The backing key/value store, as an association list (first match wins). -/
def Store (α : Type) : Type := List (String × Stored α)

/-- Raw lookup of a key in the store. -/
def storeGet {α : Type} : Store α → String → Option (Stored α)
  | [], _ => none
  | (k', v) :: rest, k => if k' = k then some v else storeGet rest k

/-- Backend delete: removes every entry for the key (`LocalStorage::delete` /
`SessionStorage::delete`; never fails). -/
def storeDelete {α : Type} : Store α → String → Store α
  | [], _ => []
  | (k', v) :: rest, k =>
      if k' = k then storeDelete rest k else (k', v) :: storeDelete rest k

/-- Backend write of a slot for a key (`LocalStorage::set` on success). -/
def storeSet {α : Type} (s : Store α) (k : String) (v : Stored α) : Store α :=
  (k, v) :: s

/-- The read-and-deserialize path (`Storage::get`): key absent or stored
bytes unparsable both yield `none`, mirroring the `Result` collapsed by
`.ok()` / `.unwrap_or_default()` in the source. -/
def readStore {α : Type} (s : Store α) (k : String) : Option α :=
  match storeGet s k with
  | some (Stored.value v) => some v
  | _ => none

/-- Which of the two browser stores an event originated from
(`e.storage_area()` identity compared against `LocalStorage::raw()` or
`SessionStorage::raw()`). -/
inductive StoreKind where
  | localKind
  | sessionKind
  deriving Repr, DecidableEq

/-- The `web_sys::StorageEvent` payload fields the listeners inspect. -/
structure StorageEvent where
  key : Option String
  newValue : Option String
  storageArea : Option StoreKind
  deriving Repr, DecidableEq

/-- A trace record emitted through the `log` crate. -/
inductive TraceRec where
  | info (msg : String)
  | warn (msg : String)
  deriving Repr, DecidableEq

/-- Handle of variant A (`UseLocalStorageDefaultHandle<T>`): the reactive
cell value and the immutable key. -/
structure LocalHandle (α : Type) where
  inner : α
  key : String
  deriving Repr, DecidableEq

/-- Handle of variant B (`UseSessionStorageWithListenHandle<T>`): the
reactive cell holds an optional value. -/
structure SessionHandle (α : Type) where
  inner : Option α
  key : String
  deriving Repr, DecidableEq

/-- Construction of variant A (`use_local_storage_default`): read the key,
degrade to the type default on absence or deserialization failure
(`LocalStorage::get(&key).ok().flatten().unwrap_or_default()`). -/
def use_local_storage_default {α : Type} (s : Store α) (key : String) (d : α) :
    LocalHandle α :=
  { inner := (readStore s key).getD d, key := key }

/-- Construction of variant B (`use_session_storage_with_listen`): read the
key, degrade to absent on failure
(`SessionStorage::get(&key).unwrap_or_default()`). -/
def use_session_storage_with_listen {α : Type} (s : Store α) (key : String) :
    SessionHandle α :=
  { inner := readStore s key, key := key }

/-- `UseLocalStorageDefaultHandle::set`: persist, and only on success emit
the info trace and update the cell. `ser` models `serde_json::to_string`;
`writeOk` models whether `LocalStorage::set(..).is_ok()`. Returns the new
handle, the new store and the traces emitted. -/
def localSet {α : Type} (h : LocalHandle α) (s : Store α) (v : α)
    (ser : α → String) (writeOk : Bool) :
    LocalHandle α × Store α × List TraceRec :=
  if writeOk then
    ({ h with inner := v }, storeSet s h.key (Stored.value v),
      [TraceRec.info ("Set storage: " ++ h.key ++ " = " ++ ser v)])
  else
    (h, s, [])

/-- `UseSessionStorageWithListenHandle::set`: persist, and only on success
update the cell; no trace is emitted in this variant. -/
def sessionSet {α : Type} (h : SessionHandle α) (s : Store α) (v : α)
    (writeOk : Bool) :
    SessionHandle α × Store α × List TraceRec :=
  if writeOk then
    ({ h with inner := some v }, storeSet s h.key (Stored.value v), [])
  else
    (h, s, [])

/-- `UseLocalStorageDefaultHandle::delete`: remove the key, emit the info
trace, reset the cell to the default. -/
def localDelete {α : Type} (h : LocalHandle α) (s : Store α) (d : α) :
    LocalHandle α × Store α × List TraceRec :=
  ({ h with inner := d }, storeDelete s h.key,
    [TraceRec.info ("deleting storage: " ++ h.key ++ " = DEFAULT")])

/-- `UseSessionStorageWithListenHandle::delete`: remove the key, set the
cell to absent. -/
def sessionDelete {α : Type} (h : SessionHandle α) (s : Store α) :
    SessionHandle α × Store α × List TraceRec :=
  ({ h with inner := none }, storeDelete s h.key, [])

/-- The storage-event listener of variant A, as written in the source:
(1) if the event key is absent, return; (2) if the storage area is not the
LocalStorage identity, warn and return; (3) if the key matches, emit the
info trace and set the cell to the freshly re-read
`LocalStorage::get(&key).unwrap_or_default()`. -/
def localListen {α : Type} (h : LocalHandle α) (s : Store α) (d : α)
    (e : StorageEvent) : LocalHandle α × List TraceRec :=
  match e.key with
  | none => (h, [])
  | some k =>
    if some StoreKind.localKind ≠ e.storageArea then
      (h, [TraceRec.warn ("Expected LocalStorage event for key " ++ k ++
        ", got SessionStorage event instead")])
    else if k = h.key then
      ({ h with inner := (readStore s h.key).getD d },
        [TraceRec.info ("Storage event for key: " ++ k)])
    else
      (h, [])

/-- The storage-event listener of variant B, as written in the source: same
shape as variant A with the SessionStorage identity, re-reading
`SessionStorage::get(&key).unwrap_or_default()` into the optional cell. -/
def sessionListen {α : Type} (h : SessionHandle α) (s : Store α)
    (e : StorageEvent) : SessionHandle α × List TraceRec :=
  match e.key with
  | none => (h, [])
  | some k =>
    if some StoreKind.sessionKind ≠ e.storageArea then
      (h, [TraceRec.warn ("Expected SessionStorage event for key " ++ k ++
        ", got LocalStorage event instead")])
    else if k = h.key then
      ({ h with inner := readStore s h.key },
        [TraceRec.info ("SessionStorage event for key: " ++ k)])
    else
      (h, [])

/-- `impl PartialEq for UseLocalStorageDefaultHandle`: compares only the
currently observed values. -/
def localHandleEq {α : Type} [DecidableEq α] (a b : LocalHandle α) : Bool :=
  decide (a.inner = b.inner)

/-- `impl PartialEq for UseSessionStorageWithListenHandle`: compares only
the currently observed optional values. -/
def sessionHandleEq {α : Type} [DecidableEq α] (a b : SessionHandle α) : Bool :=
  decide (a.inner = b.inner)

/-- `BTreeSet::insert` on the sorted duplicate-free list model: returns
whether the value was newly inserted, and the updated list. -/
def btreeInsert {α : Type} [LinearOrder α] : List α → α → Bool × List α
  | [], v => (true, [v])
  | x :: rest, v =>
    if v < x then (true, v :: x :: rest)
    else if v = x then (false, x :: rest)
    else
      let r := btreeInsert rest v
      (r.1, x :: r.2)

/-- Handle of the reactive collection container (`UseBTreeSetHandle<T>`):
the shared set and a counter of update signals. -/
structure UseBTreeSetHandle (α : Type) where
  inner : List α
  updates : Nat
  deriving Repr, DecidableEq

/-- `UseBTreeSetHandle::insert`: mutate the set, then unconditionally signal
an update; returns the boolean from `BTreeSet::insert`. -/
def UseBTreeSetHandle.insert {α : Type} [LinearOrder α]
    (h : UseBTreeSetHandle α) (v : α) : Bool × UseBTreeSetHandle α :=
  let r := btreeInsert h.inner v
  (r.1, { inner := r.2, updates := h.updates + 1 })

theorem storeGet_storeDelete {α : Type} (s : Store α) (k : String) :
    storeGet (storeDelete s k) k = none := by
  induction s with
  | nil => rfl
  | cons hd tl ih =>
    obtain ⟨k', v⟩ := hd
    by_cases hkk : k' = k
    · simpa [storeDelete, hkk] using ih
    · simp [storeDelete, storeGet, hkk, ih]

theorem localListen_frame {α : Type} (h : LocalHandle α) (s : Store α) (d : α)
    (e : StorageEvent)
    (hc : e.key ≠ some h.key ∨ e.storageArea ≠ some StoreKind.localKind) :
    (localListen h s d e).1 = h := by
  cases hek : e.key with
  | none => simp [localListen, hek]
  | some k =>
    by_cases harea : some StoreKind.localKind = e.storageArea
    · have hkne : k ≠ h.key := by
        rcases hc with hc | hc
        · intro hkk
          exact hc (by rw [hek, hkk])
        · exact absurd harea.symm hc
      simp [localListen, hek, harea, hkne]
    · simp [localListen, hek, harea]

theorem sessionListen_frame {α : Type} (h : SessionHandle α) (s : Store α)
    (e : StorageEvent)
    (hc : e.key ≠ some h.key ∨ e.storageArea ≠ some StoreKind.sessionKind) :
    (sessionListen h s e).1 = h := by
  cases hek : e.key with
  | none => simp [sessionListen, hek]
  | some k =>
    by_cases harea : some StoreKind.sessionKind = e.storageArea
    · have hkne : k ≠ h.key := by
        rcases hc with hc | hc
        · intro hkk
          exact hc (by rw [hek, hkk])
        · exact absurd harea.symm hc
      simp [sessionListen, hek, harea, hkne]
    · simp [sessionListen, hek, harea]

/-- C1: after an external change notification with matching key and matching
store kind, the in-memory value of each variant equals the value freshly
re-read from the backing store (default-substituted for variant A, absent on
failure for variant B), independent of the raw newValue payload. -/
theorem listen_matching_rereads {α : Type} (h : LocalHandle α) (s : Store α)
    (d : α) (h2 : SessionHandle α) (s2 : Store α) (e e2 : StorageEvent)
    (hk : e.key = some h.key) (ha : e.storageArea = some StoreKind.localKind)
    (hk2 : e2.key = some h2.key)
    (ha2 : e2.storageArea = some StoreKind.sessionKind) :
    (localListen h s d e).1.inner = (readStore s h.key).getD d ∧
    (sessionListen h2 s2 e2).1.inner = readStore s2 h2.key := by
  constructor
  · simp [localListen, hk, ha]
  · simp [sessionListen, hk2, ha2]

/-- Witness for C1: the backend holds 5 while the event payload carries the
string 7; the reconciled value is the re-read 5-side, not the payload. -/
theorem listen_matching_rereads_witness :
    (localListen (⟨0, "a"⟩ : LocalHandle Nat) [("a", Stored.value 5)] 0
      ⟨some "a", some "7", some StoreKind.localKind⟩).1.inner
      = (readStore [("a", Stored.value 5)] "a").getD 0 ∧
    (sessionListen (⟨some 1, "b"⟩ : SessionHandle Nat) [("b", Stored.corrupt)]
      ⟨some "b", some "x", some StoreKind.sessionKind⟩).1.inner
      = readStore [("b", Stored.corrupt)] "b" :=
  listen_matching_rereads _ _ _ _ _ _ _ rfl rfl rfl rfl

/-- C2: an external change notification whose key differs from the handle
key, or whose storage area does not identify the own store kind, leaves the
handle (and hence its in-memory value) unchanged, in both variants. -/
theorem listen_nonmatching_frame {α : Type} (h : LocalHandle α) (s : Store α)
    (d : α) (h2 : SessionHandle α) (s2 : Store α) (e e2 : StorageEvent)
    (hc : e.key ≠ some h.key ∨ e.storageArea ≠ some StoreKind.localKind)
    (hc2 : e2.key ≠ some h2.key ∨ e2.storageArea ≠ some StoreKind.sessionKind) :
    (localListen h s d e).1 = h ∧ (sessionListen h2 s2 e2).1 = h2 :=
  ⟨localListen_frame h s d e hc, sessionListen_frame h2 s2 e2 hc2⟩

/-- Witness for C2: key isolation for variant A (event for key b, container
watching key a) and store-kind isolation for variant B (matching key but a
LocalStorage-identified event on a session container). -/
theorem listen_nonmatching_frame_witness :
    (localListen (⟨4, "a"⟩ : LocalHandle Nat) [("b", Stored.value 9)] 0
      ⟨some "b", some "9", some StoreKind.localKind⟩).1 = ⟨4, "a"⟩ ∧
    (sessionListen (⟨some 1, "k"⟩ : SessionHandle Nat) [("k", Stored.value 2)]
      ⟨some "k", some "2", some StoreKind.localKind⟩).1 = ⟨some 1, "k"⟩ :=
  listen_nonmatching_frame _ _ _ _ _ _ _
    (Or.inl (by decide)) (Or.inr (by decide))

/-- C3: when the backend write fails, set leaves the handle, the store and
the trace log untouched in both variants; as a total function it raises
nothing to the caller. -/
theorem set_failure_noop {α : Type} (h : LocalHandle α) (s : Store α) (v : α)
    (ser : α → String) (h2 : SessionHandle α) (s2 : Store α) (v2 : α) :
    localSet h s v ser false = (h, s, []) ∧
    sessionSet h2 s2 v2 false = (h2, s2, []) :=
  ⟨rfl, rfl⟩

/-- C4: when the backend write succeeds, the cell holds the new value (wrapped
as present for variant B) and re-reading the key from the updated store
yields the same value, so memory and persistence agree. -/
theorem set_success_roundtrip {α : Type} (h : LocalHandle α) (s : Store α)
    (v : α) (ser : α → String) (h2 : SessionHandle α) (s2 : Store α) (v2 : α) :
    (localSet h s v ser true).1.inner = v ∧
    readStore (localSet h s v ser true).2.1 h.key = some v ∧
    (sessionSet h2 s2 v2 true).1.inner = some v2 ∧
    readStore (sessionSet h2 s2 v2 true).2.1 h2.key = some v2 := by
  refine ⟨rfl, ?_, rfl, ?_⟩ <;>
    simp [localSet, sessionSet, storeSet, readStore, storeGet]

/-- C5: constructing over a key whose read-and-deserialize path fails (key
absent, unparsable slot, backend failure) yields the type default for
variant A and absent for variant B; construction is total, no error. -/
theorem construction_degrades {α : Type} (s : Store α) (key : String) (d : α)
    (s2 : Store α) (key2 : String)
    (hr : readStore s key = none) (hr2 : readStore s2 key2 = none) :
    (use_local_storage_default s key d).inner = d ∧
    (use_session_storage_with_listen s2 key2).inner = none := by
  simp [use_local_storage_default, use_session_storage_with_listen, hr, hr2]

/-- Witness for C5: a corrupt slot for variant A and an absent key for
variant B. -/
theorem construction_degrades_witness :
    (use_local_storage_default [("k", (Stored.corrupt : Stored Nat))] "k" 7).inner = 7 ∧
    (use_session_storage_with_listen ([] : Store Nat) "x").inner = none :=
  construction_degrades _ _ _ _ _ rfl rfl

/-- C6: after delete, the backing store no longer holds the key and the cell
holds the default (variant A) or absent (variant B); delete is total and
never fails, also on an already-missing key. -/
theorem delete_resets {α : Type} (h : LocalHandle α) (s : Store α) (d : α)
    (h2 : SessionHandle α) (s2 : Store α) :
    (localDelete h s d).1.inner = d ∧
    storeGet (localDelete h s d).2.1 h.key = none ∧
    (sessionDelete h2 s2).1.inner = none ∧
    storeGet (sessionDelete h2 s2).2.1 h2.key = none := by
  refine ⟨rfl, ?_, rfl, ?_⟩ <;>
    simp [localDelete, sessionDelete, storeGet_storeDelete]

/-- Counterexample for C7: the container watches key a; an event for the
different key b with a mismatched storage area still emits the warning
trace, so a key-differing notification is not ignored without action. -/
theorem listen_key_mismatch_warns_cex :
    (localListen (⟨0, "a"⟩ : LocalHandle Nat) [] 0
      ⟨some "b", none, some StoreKind.sessionKind⟩).2 =
      [TraceRec.warn
        "Expected LocalStorage event for key b, got SessionStorage event instead"] ∧
    (localListen (⟨0, "a"⟩ : LocalHandle Nat) [] 0
      ⟨some "b", none, some StoreKind.sessionKind⟩).2 ≠ [] := by
  constructor
  · rfl
  · decide

/-- C7 as amended: in the source the store-kind check precedes the
key-equality check. Any notification with a key present whose storage area
does not identify the own store kind produces the cross-store warning,
regardless of its key; a notification with matching store kind but a
different key is ignored with no trace. -/
theorem listen_storekind_check_first {α : Type} (h : LocalHandle α)
    (s : Store α) (d : α) (h2 : SessionHandle α) (s2 : Store α)
    (e e2 : StorageEvent) (k k2 : String)
    (hk : e.key = some k) (hk2 : e2.key = some k2) :
    ((e.storageArea ≠ some StoreKind.localKind →
        localListen h s d e = (h, [TraceRec.warn
          ("Expected LocalStorage event for key " ++ k ++
            ", got SessionStorage event instead")])) ∧
      (e.storageArea = some StoreKind.localKind → k ≠ h.key →
        localListen h s d e = (h, []))) ∧
    ((e2.storageArea ≠ some StoreKind.sessionKind →
        sessionListen h2 s2 e2 = (h2, [TraceRec.warn
          ("Expected SessionStorage event for key " ++ k2 ++
            ", got LocalStorage event instead")])) ∧
      (e2.storageArea = some StoreKind.sessionKind → k2 ≠ h2.key →
        sessionListen h2 s2 e2 = (h2, []))) := by
  refine ⟨⟨?_, ?_⟩, ?_, ?_⟩
  · intro ha
    have hne : some StoreKind.localKind ≠ e.storageArea := fun hco => ha hco.symm
    simp [localListen, hk, hne]
  · intro ha hkne
    simp [localListen, hk, ha, hkne]
  · intro ha
    have hne : some StoreKind.sessionKind ≠ e2.storageArea := fun hco => ha hco.symm
    simp [sessionListen, hk2, hne]
  · intro ha hkne
    simp [sessionListen, hk2, ha, hkne]

/-- Witness for C7 amended: a matching-store event for a foreign key is
dropped silently; a mismatched-store event warns even for a foreign key. -/
theorem listen_storekind_check_first_witness :
    localListen (⟨0, "a"⟩ : LocalHandle Nat) [] 0
      ⟨some "b", none, some StoreKind.localKind⟩ = (⟨0, "a"⟩, []) ∧
    sessionListen (⟨none, "a"⟩ : SessionHandle Nat) []
      ⟨some "b", none, none⟩ = (⟨none, "a"⟩, [TraceRec.warn
        "Expected SessionStorage event for key b, got LocalStorage event instead"]) :=
  ⟨(listen_storekind_check_first (⟨0, "a"⟩ : LocalHandle Nat) [] 0
      (⟨none, "a"⟩ : SessionHandle Nat) []
      ⟨some "b", none, some StoreKind.localKind⟩ ⟨some "b", none, none⟩
      "b" "b" rfl rfl).1.2 rfl (by decide),
   (listen_storekind_check_first (⟨0, "a"⟩ : LocalHandle Nat) [] 0
      (⟨none, "a"⟩ : SessionHandle Nat) []
      ⟨some "b", none, some StoreKind.localKind⟩ ⟨some "b", none, none⟩
      "b" "b" rfl rfl).2.1 (by decide)⟩

/-- Counterexample for C8: a successful set in variant B (the cell is
updated to the new value, so the write succeeded) emits no trace record at
all, refuting the claim that both variants emit an informational trace. -/
theorem session_set_no_trace_cex :
    (sessionSet (⟨none, "k"⟩ : SessionHandle Nat) [] 5 true).1.inner = some 5 ∧
    (sessionSet (⟨none, "k"⟩ : SessionHandle Nat) [] 5 true).2.2 = [] :=
  ⟨rfl, rfl⟩

/-- C8 as amended: on a successful set, variant A emits exactly one
informational trace describing the key and the serialized value, while
variant B emits no trace. -/
theorem set_trace_variants {α : Type} (h : LocalHandle α) (s : Store α)
    (v : α) (ser : α → String) (h2 : SessionHandle α) (s2 : Store α)
    (v2 : α) :
    (localSet h s v ser true).2.2 =
      [TraceRec.info ("Set storage: " ++ h.key ++ " = " ++ ser v)] ∧
    (sessionSet h2 s2 v2 true).2.2 = [] :=
  ⟨rfl, rfl⟩

/-- C9: the handle equality of both variants returns true exactly when the
currently observed values are equal, and it is unchanged under replacing the
keys of either handle, so it depends only on the current values. -/
theorem handle_eq_iff_values {α : Type} [DecidableEq α] (a b : LocalHandle α)
    (a2 b2 : SessionHandle α) :
    (localHandleEq a b = true ↔ a.inner = b.inner) ∧
    (sessionHandleEq a2 b2 = true ↔ a2.inner = b2.inner) ∧
    (∀ k k2, localHandleEq { a with key := k } { b with key := k2 } =
      localHandleEq a b) ∧
    (∀ k k2, sessionHandleEq { a2 with key := k } { b2 with key := k2 } =
      sessionHandleEq a2 b2) := by
  refine ⟨?_, ?_, ?_, ?_⟩ <;> simp [localHandleEq, sessionHandleEq]

theorem btreeInsert_fst {α : Type} [LinearOrder α] (l : List α) (v : α)
    (hs : l.Pairwise (· < ·)) : (btreeInsert l v).1 = true ↔ v ∉ l := by
  induction l with
  | nil => simp [btreeInsert]
  | cons x rest ih =>
    rw [List.pairwise_cons] at hs
    obtain ⟨hx, hrest⟩ := hs
    by_cases h1 : v < x
    · have hnotin : v ∉ x :: rest := by
        intro hmem
        rcases List.mem_cons.mp hmem with hvx | hvr
        · exact absurd h1 (by simp [hvx])
        · exact absurd (lt_trans h1 (hx v hvr)) (lt_irrefl v)
      simp [btreeInsert, h1, hnotin]
    · by_cases h2 : v = x
      · simp [btreeInsert, h1, h2]
      · simp [btreeInsert, h1, h2, ih hrest]

theorem btreeInsert_mem_self {α : Type} [LinearOrder α] (l : List α) (v : α) :
    v ∈ (btreeInsert l v).2 := by
  induction l with
  | nil => simp [btreeInsert]
  | cons x rest ih =>
    by_cases h1 : v < x
    · simp [btreeInsert, h1]
    · by_cases h2 : v = x
      · simp [btreeInsert, h1, h2]
      · simp [btreeInsert, h1, h2, ih]

theorem btreeInsert_mem_other {α : Type} [LinearOrder α] (l : List α)
    (v x0 : α) (hne : x0 ≠ v) : x0 ∈ (btreeInsert l v).2 ↔ x0 ∈ l := by
  induction l with
  | nil => simp [btreeInsert, hne]
  | cons x rest ih =>
    by_cases h1 : v < x
    · simp [btreeInsert, h1, hne]
    · by_cases h2 : v = x
      · simp [btreeInsert, h1, h2]
      · simp [btreeInsert, h1, h2, ih]

/-- C10: on a sorted duplicate-free state, insert returns true exactly when
the value was not already a member, the value is a member afterwards, every
other element keeps its membership, and the update signal fires once. -/
theorem btree_insert_spec {α : Type} [LinearOrder α]
    (h : UseBTreeSetHandle α) (v : α) (hs : h.inner.Pairwise (· < ·)) :
    ((h.insert v).1 = true ↔ v ∉ h.inner) ∧
    v ∈ (h.insert v).2.inner ∧
    (∀ x, x ≠ v → (x ∈ (h.insert v).2.inner ↔ x ∈ h.inner)) ∧
    (h.insert v).2.updates = h.updates + 1 :=
  ⟨btreeInsert_fst h.inner v hs, btreeInsert_mem_self h.inner v,
    fun x hx => btreeInsert_mem_other h.inner v x hx, rfl⟩

/-- Witness for C10: inserting 2 into the sorted set containing 1 and 3
returns true, 2 and 3 are members afterwards, and one update is signalled. -/
theorem btree_insert_spec_witness :
    ((⟨[1, 3], 0⟩ : UseBTreeSetHandle Nat).insert 2).1 = true ∧
    2 ∈ ((⟨[1, 3], 0⟩ : UseBTreeSetHandle Nat).insert 2).2.inner ∧
    (3 ∈ ((⟨[1, 3], 0⟩ : UseBTreeSetHandle Nat).insert 2).2.inner ↔
      3 ∈ [1, 3]) ∧
    ((⟨[1, 3], 0⟩ : UseBTreeSetHandle Nat).insert 2).2.updates = 1 :=
  have hmain := btree_insert_spec (⟨[1, 3], 0⟩ : UseBTreeSetHandle Nat) 2
    (by decide)
  ⟨hmain.1.mpr (by decide), hmain.2.1, hmain.2.2.1 3 (by decide), hmain.2.2.2⟩
